import Mathlib

/-!
Verification development for the syft classification core and its
application-configuration builder.

Part A embeds `internal/config/application.go` (present in the source tree):
the `Application` configuration structure and its `build` step, parameterized
over the external parse functions (`presenter.ParseOption`, `source.ParseScope`,
`logrus.ParseLevel`) which live outside this repository.

Part B models the Classification Cataloger.  Its implementation file is not in
the source tree (only its test file is), so the definitions are modelled from
the specification: classifiers with a cheap file selector and a byte-level
content pattern with named capture groups, an evidence matcher that finds the
leftmost match, and the cataloging loop that aggregates per-location
classification lists.
-/

set_option autoImplicit false

namespace Syft

/-! ## Part A: application configuration (`internal/config/application.go`) -/

/-- The presenter option type; `build` only distinguishes the unknown value. -/
inductive PresenterOption where
  | unknownPresenter
  | jsonPresenter
  | textPresenter
  | tablePresenter
deriving DecidableEq, Repr

/-- The source scope option type; `build` only distinguishes the unknown value. -/
inductive Scope where
  | unknownScope
  | squashedScope
  | allLayersScope
deriving DecidableEq, Repr

/-- logrus log levels used by `Application.build`. -/
inductive Level where
  | panicLevel
  | fatalLevel
  | errorLevel
  | warnLevel
  | infoLevel
  | debugLevel
  | traceLevel
deriving DecidableEq, Repr

/-- `CliOnlyOptions` from application.go. -/
structure CliOnlyOptions where
  configPath : String
  verbosity : Int
deriving DecidableEq, Repr

/-- the `logging` struct from application.go. -/
structure Logging where
  structured : Bool
  levelOpt : Level
  level : String
  fileLocation : String
  colors : Bool
deriving DecidableEq, Repr

/-- the `Application` struct from application.go. -/
structure Application where
  configPath : String
  presenterOpt : PresenterOption
  output : String
  scopeOpt : Scope
  scope : String
  quiet : Bool
  log : Logging
  cliOptions : CliOnlyOptions
  checkForAppUpdate : Bool
deriving DecidableEq, Repr

/-- Character-wise ASCII lower-casing, modelling strings.ToLower on the
level strings the config uses. -/
def toLowerStr (s : String) : String :=
  String.mk (s.data.map Char.toLower)

/-- `Application.build` from application.go, parameterized over the external
parse functions `presenter.ParseOption`, `source.ParseScope` and
`logrus.ParseLevel` (modelled as `String → Option Level`, `none` standing for
a parse error). -/
def build (po : String → PresenterOption) (ps : String → Scope)
    (pl : String → Option Level) (cfg : Application) : Except String Application :=
  if po cfg.output = PresenterOption.unknownPresenter then
    Except.error ("bad --output value " ++ cfg.output)
  else if ps cfg.scope = Scope.unknownScope then
    Except.error ("bad --scope value " ++ cfg.scope)
  else
    let cfg2 : Application :=
      { cfg with presenterOpt := po cfg.output, scopeOpt := ps cfg.scope }
    if cfg.quiet then
      Except.ok { cfg2 with log := { cfg2.log with levelOpt := Level.panicLevel } }
    else if cfg.log.level ≠ "" then
      if cfg.cliOptions.verbosity > 0 then
        Except.error "cannot explicitly set log level (cfg file or env var) and use -v flag together"
      else
        match pl (toLowerStr cfg.log.level) with
        | none => Except.error ("bad log level configured " ++ cfg.log.level)
        | some lvl => Except.ok { cfg2 with log := { cfg2.log with levelOpt := lvl } }
    else
      Except.ok { cfg2 with log := { cfg2.log with levelOpt :=
        if cfg.cliOptions.verbosity = 1 then Level.infoLevel
        else if cfg.cliOptions.verbosity ≥ 2 then Level.debugLevel
        else Level.warnLevel } }

/-- `LoadApplicationConfig` from application.go, with the viper unmarshal step
(external) abstracted as its outcome. -/
def loadApplicationConfig (po : String → PresenterOption) (ps : String → Scope)
    (pl : String → Option Level) (unmarshalled : Except String Application) :
    Except String Application :=
  match unmarshalled with
  | Except.error e => Except.error ("unable to parse config: " ++ e)
  | Except.ok cfg =>
    match build po ps pl cfg with
    | Except.error e => Except.error ("invalid config: " ++ e)
    | Except.ok c => Except.ok c

/-! ## Part B: the classification core.

Modelled from the spec: the implementation of the classification cataloger is
not in the source tree (only its test file is).  The definitions below follow
the spec: a content pattern is a regular expression over raw bytes (modelled as
characters) with named capture groups; matching finds the leftmost match and
extracts the groups that participated.
-/

/-- Modelled from the spec: a content-pattern regular expression with named
capture groups (spec 3, "a regular expression ... containing one or more named
capture groups").  Missing from src: the classifier definitions file. -/
inductive Pattern where
  | eps
  | lit (c : Char)
  | cls (cs : List Char)
  | seqp (p q : Pattern)
  | alt (p q : Pattern)
  | star (p : Pattern)
  | group (n : String) (p : Pattern)
deriving DecidableEq, Repr

/-- Structural size of a pattern, used to compute matching fuel. -/
def Pattern.size : Pattern → Nat
  | Pattern.eps => 1
  | Pattern.lit _ => 1
  | Pattern.cls _ => 1
  | Pattern.seqp p q => p.size + q.size + 1
  | Pattern.alt p q => p.size + q.size + 1
  | Pattern.star p => p.size + 1
  | Pattern.group _ p => p.size + 1

/-- Names of the named capture groups of a pattern, in syntactic order. -/
def Pattern.groupNames : Pattern → List String
  | Pattern.eps => []
  | Pattern.lit _ => []
  | Pattern.cls _ => []
  | Pattern.seqp p q => p.groupNames ++ q.groupNames
  | Pattern.alt p q => p.groupNames ++ q.groupNames
  | Pattern.star p => p.groupNames
  | Pattern.group n p => n :: p.groupNames

/-- A capture list: group name together with the captured substring. -/
abbrev Captures := List (String × String)

/-- Backtracking matcher in continuation-passing style.  `matchFuel fuel p s
caps k` tries to match `p` against an initial segment of `s`; on success the
continuation receives the remaining input and the accumulated captures.
Alternation is leftmost-first and star is greedy, as in the leftmost-match
semantics the spec requires; the fuel bounds the recursion. -/
def matchFuel {R : Type} : Nat → Pattern → List Char → Captures →
    (List Char → Captures → Option R) → Option R
  | 0, _, _, _, _ => none
  | Nat.succ fuel, p, s, caps, k =>
    match p with
    | Pattern.eps => k s caps
    | Pattern.lit c =>
      match s with
      | [] => none
      | a :: rest => if a = c then k rest caps else none
    | Pattern.cls cs =>
      match s with
      | [] => none
      | a :: rest => if a ∈ cs then k rest caps else none
    | Pattern.seqp p q =>
      matchFuel fuel p s caps (fun s2 caps2 => matchFuel fuel q s2 caps2 k)
    | Pattern.alt p q =>
      (matchFuel fuel p s caps k).orElse (fun _ => matchFuel fuel q s caps k)
    | Pattern.star p =>
      (matchFuel fuel p s caps (fun s2 caps2 =>
        if s2.length < s.length then matchFuel fuel (Pattern.star p) s2 caps2 k
        else none)).orElse (fun _ => k s caps)
    | Pattern.group n p =>
      matchFuel fuel p s caps (fun s2 caps2 =>
        k s2 (caps2 ++ [(n, String.mk (s.take (s.length - s2.length)))]))

/-- Fuel sufficient for the concrete patterns of the default classifier set. -/
def fuelFor (p : Pattern) (s : List Char) : Nat :=
  (p.size + 1) * (s.length + 1) + 1

/-- Leftmost match: try to match the pattern at each start offset from the
left, returning the captures of the first offset at which it succeeds.
Modelled from the spec: "finding the first match position (leftmost)". -/
def findIn (p : Pattern) : List Char → Option Captures
  | [] => matchFuel (fuelFor p []) p [] [] (fun _ caps => some caps)
  | a :: rest =>
    match matchFuel (fuelFor p (a :: rest)) p (a :: rest) [] (fun _ caps => some caps) with
    | some caps => some caps
    | none => findIn p rest

/-- Anchored match of a whole string, used by file selectors. -/
def fullMatch (p : Pattern) (s : String) : Bool :=
  (matchFuel (fuelFor p s.data) p s.data []
    (fun rest _ => if rest.isEmpty then some [] else (none : Option Captures))).isSome

/-- Metadata update: a later capture of the same group name overwrites the
earlier one (one value per key, keys unique). -/
def insertMeta (m : Captures) (kv : String × String) : Captures :=
  m.filter (fun p => p.1 ≠ kv.1) ++ [kv]

/-- Fold a capture list into a metadata mapping with unique keys. -/
def metadataOf (caps : Captures) : Captures :=
  caps.foldl insertMeta []

/-- Boolean key membership in a metadata mapping / capture list. -/
def keyMem (n : String) (m : Captures) : Bool :=
  m.any (fun p => p.1 == n)

/-- Modelled from the spec: a Location is a resolver-issued identity for a
file, keyed by real path; equality is by real path. -/
structure Location where
  realPath : String
deriving DecidableEq, Repr

/-- Characters of the basename: the accumulator is reset at every slash. -/
def basenameAux : List Char → List Char → List Char
  | [], acc => acc
  | c :: rest, acc =>
    if c = '/' then basenameAux rest [] else basenameAux rest (acc ++ [c])

/-- Basename of a path: the part after the last slash. -/
def basename (p : String) : String :=
  String.mk (basenameAux p.data [])

/-- Modelled from the spec: a Classification is the result of one classifier
succeeding against one location: class name plus extracted metadata. -/
structure Classification where
  Class : String
  Metadata : Captures
deriving DecidableEq, Repr

/-- Modelled from the spec: a Classifier is an immutable rule with a
human-readable class name, a file-selector over the basename, a content
pattern with named capture groups, and an optional read-size bound. -/
structure Classifier where
  Class : String
  fileSelector : String → Bool
  contentPattern : Pattern
  readBound : Option Nat

/-- Outcome of the resolver opening one location's content: readable bytes,
an expected-absent location (e.g. a broken symlink, treated as no-match per
the spec), or an unexpected I/O error. -/
inductive OpenResult where
  | ok (data : List Char)
  | absent
  | ioError (msg : String)
deriving DecidableEq, Repr

/-- Modelled from the spec: the resolver collaborator — an enumeration of
locations and a content opener. -/
structure Resolver where
  locations : List Location
  content : Location → OpenResult

/-- Decidable equality for `Except`, so that concrete runs can be checked by
`decide`. -/
instance instDecEqExcept {ε α : Type} [DecidableEq ε] [DecidableEq α] :
    DecidableEq (Except ε α) := fun a b =>
  match a, b with
  | Except.ok x, Except.ok y =>
    if h : x = y then Decidable.isTrue (by rw [h])
    else Decidable.isFalse (fun hh => h (Except.ok.inj hh))
  | Except.error x, Except.error y =>
    if h : x = y then Decidable.isTrue (by rw [h])
    else Decidable.isFalse (fun hh => h (Except.error.inj hh))
  | Except.ok _, Except.error _ => Decidable.isFalse (fun hh => Except.noConfusion hh)
  | Except.error _, Except.ok _ => Decidable.isFalse (fun hh => Except.noConfusion hh)

/-- The content window the matcher actually scans: the whole content, or a
bounded-size initial window when the classifier carries a read bound. -/
def window (c : Classifier) (data : List Char) : List Char :=
  match c.readBound with
  | none => data
  | some n => data.take n

/-- Modelled from the spec: the Evidence Matcher (spec 4.2).  Applies the
file-selector to the basename; on rejection returns no-match without
consulting the opener.  Otherwise opens the content: an unexpected I/O error
is propagated, an expected-absent location is a no-match, and otherwise the
content pattern is evaluated (leftmost match) on the bounded window and the
participating named groups become the metadata. -/
def evidenceMatch (c : Classifier) (loc : Location)
    (opener : Location → OpenResult) : Except String (Option Classification) :=
  if c.fileSelector (basename loc.realPath) then
    match opener loc with
    | OpenResult.ioError msg => Except.error msg
    | OpenResult.absent => Except.ok none
    | OpenResult.ok data =>
      match findIn c.contentPattern (window c data) with
      | none => Except.ok none
      | some caps =>
        Except.ok (some { Class := c.Class, Metadata := metadataOf caps })
  else
    Except.ok none

/-- Apply every classifier, in definition order, to one location; successful
matches are collected in classifier order, and the first error aborts. -/
def matchAll (cs : List Classifier) (loc : Location)
    (opener : Location → OpenResult) : Except String (List Classification) :=
  match cs with
  | [] => Except.ok []
  | c :: rest =>
    match evidenceMatch c loc opener with
    | Except.error e => Except.error e
    | Except.ok o =>
      match matchAll rest loc opener with
      | Except.error e => Except.error e
      | Except.ok tail => Except.ok (o.toList ++ tail)

/-- The catalog result: an association list from location to its ordered
classification list. -/
abbrev CatalogResult := List (Location × List Classification)

/-- Merge one location's nonempty classification list into the result,
appending to an existing entry for the same location (spec 4.4 merge rule). -/
def addTo (acc : CatalogResult) (loc : Location) (lst : List Classification) :
    CatalogResult :=
  if acc.any (fun p => p.1 = loc) then
    acc.map (fun p => if p.1 = loc then (p.1, p.2 ++ lst) else p)
  else
    acc ++ [(loc, lst)]

/-- The cataloging loop over the remaining locations, carrying the result
accumulated so far; a location with zero successes is never inserted. -/
def catalogFrom (cs : List Classifier) (content : Location → OpenResult) :
    List Location → CatalogResult → Except String CatalogResult
  | [], acc => Except.ok acc
  | loc :: rest, acc =>
    match matchAll cs loc content with
    | Except.error e => Except.error e
    | Except.ok lst =>
      catalogFrom cs content rest (if lst.isEmpty then acc else addTo acc loc lst)

/-- Modelled from the spec: `Catalog(resolver)` (spec 4.3) — enumerate all
locations, apply every classifier to each, aggregate, fail on the first
unexpected I/O error. -/
def Catalog (cs : List Classifier) (r : Resolver) : Except String CatalogResult :=
  catalogFrom cs r.content r.locations []

/-! ### The default classifier set, modelled from the spec's scenarios. -/

/-- The decimal digit characters. -/
def digitChars : List Char := ['0', '1', '2', '3', '4', '5', '6', '7', '8', '9']

/-- ASCII letters, lower case then upper case. -/
def letterChars : List Char :=
  (List.range 26).map (fun i => Char.ofNat (97 + i)) ++
    (List.range 26).map (fun i => Char.ofNat (65 + i))

/-- A single decimal digit. -/
def digit : Pattern := Pattern.cls digitChars

/-- One or more repetitions of a pattern. -/
def plus (p : Pattern) : Pattern := Pattern.seqp p (Pattern.star p)

/-- The literal pattern matching exactly the given string. -/
def strPat (s : String) : Pattern :=
  s.data.foldr (fun c acc => Pattern.seqp (Pattern.lit c) acc) Pattern.eps

/-- Sequence a list of patterns. -/
def seqAll (ps : List Pattern) : Pattern := ps.foldr Pattern.seqp Pattern.eps

/-- A character that may appear in an embedded version suffix. -/
def versionChar : Pattern :=
  Pattern.cls ('-' :: '_' :: (digitChars ++ letterChars))

/-- Modelled from the spec: the python binary classifier's content pattern —
a three-component numeric version followed by a release suffix, captured as
the named group version (scenario: marker 3.7.4a-vZ9). -/
def pythonBinaryPattern : Pattern :=
  Pattern.group "version"
    (seqAll [plus digit, Pattern.lit '.', plus digit, Pattern.lit '.', plus digit,
      Pattern.star versionChar])

/-- Modelled from the spec: the python binary classifier's file selector —
basename matches python3.N or libpython3.N.so. -/
def pythonBinarySelector (name : String) : Bool :=
  fullMatch (seqAll [strPat "python3.", plus digit]) name ||
    fullMatch (seqAll [strPat "libpython3.", plus digit, strPat ".so"]) name

/-- Modelled from the spec: the cpython source classifier's content pattern
(scenario: a patchlevel header version macro encoding 3.9-aZ5). -/
def cpythonSourcePattern : Pattern :=
  Pattern.group "version"
    (seqAll [plus digit, Pattern.lit '.', plus digit, Pattern.star versionChar])

/-- Modelled from the spec: the go binary classifier's content pattern — an
embedded go build tag such as go1.14, version captured without the prefix. -/
def goBinaryPattern : Pattern :=
  Pattern.seqp (strPat "go")
    (Pattern.group "version" (seqAll [plus digit, Pattern.lit '.', plus digit]))

/-- Modelled from the spec: the go hint file's content pattern (scenario: a
plain VERSION file containing 1.15). -/
def goHintPattern : Pattern :=
  Pattern.group "version" (seqAll [plus digit, Pattern.lit '.', plus digit])

/-- Modelled from the spec: the busybox classifier's content pattern — an
embedded release banner with a three-component version. -/
def busyboxPattern : Pattern :=
  Pattern.seqp (strPat "BusyBox v")
    (Pattern.group "version"
      (seqAll [plus digit, Pattern.lit '.', plus digit, Pattern.lit '.', plus digit]))

/-- Modelled from the spec: the python binary classifier. -/
def pythonBinaryClassifier : Classifier :=
  { Class := "python-binary", fileSelector := pythonBinarySelector,
    contentPattern := pythonBinaryPattern, readBound := none }

/-- Modelled from the spec: the cpython source header classifier. -/
def cpythonSourceClassifier : Classifier :=
  { Class := "cpython-source", fileSelector := fun name => name == "patchlevel.h",
    contentPattern := cpythonSourcePattern, readBound := none }

/-- Modelled from the spec: the go binary classifier. -/
def goBinaryClassifier : Classifier :=
  { Class := "go-binary", fileSelector := fun name => name == "go",
    contentPattern := goBinaryPattern, readBound := some 65536 }

/-- Modelled from the spec: the go hint file classifier. -/
def goHintClassifier : Classifier :=
  { Class := "go-binary-hint", fileSelector := fun name => name == "VERSION",
    contentPattern := goHintPattern, readBound := some 1024 }

/-- Modelled from the spec: the busybox binary classifier. -/
def busyboxClassifier : Classifier :=
  { Class := "busybox-binary", fileSelector := fun name => name == "busybox",
    contentPattern := busyboxPattern, readBound := none }

/-- Modelled from the spec: the default classifier set (spec 4.1 and the
concrete scenarios of spec 8): python binaries, cpython source headers, go
binaries, go hint files, busybox binaries, in that definition order. -/
def DefaultClassifiers : List Classifier :=
  [ pythonBinaryClassifier, cpythonSourceClassifier, goBinaryClassifier,
    goHintClassifier, busyboxClassifier ]

/-- No string occurs twice in the list. -/
def nodupNames : List String → Bool
  | [] => true
  | x :: xs => (!xs.contains x) && nodupNames xs

/-- The constructed cataloger: a validated classifier set. -/
structure ClassificationCataloger where
  classifiers : List Classifier

/-- Modelled from the spec: cataloger construction (spec 4.1, 4.3) —
validation fails on an empty classifier set and on a named-group name
collision within one classifier's pattern (a malformed pattern; invalid
regular-expression syntax has no counterpart in the pattern syntax tree). -/
def NewClassificationCataloger (cs : List Classifier) :
    Except String ClassificationCataloger :=
  if cs.isEmpty then
    Except.error "no classifiers provided"
  else if cs.all (fun c => nodupNames c.contentPattern.groupNames) then
    Except.ok { classifiers := cs }
  else
    Except.error "invalid classifier pattern"

/-- Running a constructed cataloger is `Catalog` over its classifier set. -/
def ClassificationCataloger.run (cc : ClassificationCataloger) (r : Resolver) :
    Except String CatalogResult :=
  Catalog cc.classifiers r

/-! ### Concrete fixtures for the positive and negative scenarios. -/

/-- The location of the positive python fixture file. -/
def pyLoc : Location := { realPath := "libpython3.7.so" }

/-- Content of the positive python fixture: the marker embedded in junk. -/
def pyContent : List Char := "@3.7.4a-vZ9@".data

/-- A one-file resolver holding the positive python fixture. -/
def pyResolver : Resolver :=
  { locations := [pyLoc],
    content := fun l => if l = pyLoc then OpenResult.ok pyContent else OpenResult.absent }

/-- The expected classification for the python fixture. -/
def pyClassification : Classification :=
  { Class := "python-binary", Metadata := [("version", "3.7.4a-vZ9")] }

/-- A location no default classifier's selector accepts. -/
def negLoc : Location := { realPath := "README.md" }

/-- A one-file resolver holding only an unrelated, non-matching file. -/
def negResolver : Resolver :=
  { locations := [negLoc],
    content := fun _ => OpenResult.ok "nothing of interest here".data }

/-- A resolver whose only file is selected by the python classifier but whose
content cannot be opened. -/
def errResolver : Resolver :=
  { locations := [pyLoc],
    content := fun _ => OpenResult.ioError "read failure" }

/-- A resolver extensionally equal to `pyResolver` on its enumerated
locations but written differently off them. -/
def pyResolverVariant : Resolver :=
  { locations := [pyLoc],
    content := fun l =>
      if l = pyLoc then OpenResult.ok pyContent else OpenResult.ioError "off-snapshot" }

/-- A classifier whose pattern has a named-group name collision, which
construction-time validation must reject. -/
def collidingClassifier : Classifier :=
  { Class := "colliding",
    fileSelector := fun _ => true,
    contentPattern :=
      Pattern.seqp (Pattern.group "version" digit) (Pattern.group "version" digit),
    readBound := none }

/-- The per-classifier contribution to one location's classification list:
the zero-or-one classifications its evidence match yields. -/
def contribution (c : Classifier) (loc : Location)
    (opener : Location → OpenResult) : List Classification :=
  match evidenceMatch c loc opener with
  | Except.ok (some cls) => [cls]
  | _ => []

/-- A sample application configuration with quiet set together with
conflicting logging options, for concrete checks. -/
def quietCfg : Application :=
  { configPath := "", presenterOpt := PresenterOption.unknownPresenter,
    output := "json", scopeOpt := Scope.unknownScope, scope := "squashed",
    quiet := true,
    log := { structured := false, levelOpt := Level.warnLevel, level := "debug",
             fileLocation := "", colors := false },
    cliOptions := { configPath := "", verbosity := 3 },
    checkForAppUpdate := true }

/-- A sample non-quiet configuration with an unparseable log level. -/
def badLevelCfg : Application :=
  { configPath := "", presenterOpt := PresenterOption.unknownPresenter,
    output := "json", scopeOpt := Scope.unknownScope, scope := "squashed",
    quiet := false,
    log := { structured := false, levelOpt := Level.warnLevel, level := "bogus",
             fileLocation := "", colors := false },
    cliOptions := { configPath := "", verbosity := 0 },
    checkForAppUpdate := true }

/-- A sample presenter parse function for concrete checks. -/
def samplePO : String → PresenterOption :=
  fun s => if s == "json" then PresenterOption.jsonPresenter else PresenterOption.unknownPresenter

/-- A sample scope parse function for concrete checks. -/
def samplePS : String → Scope :=
  fun s => if s == "squashed" then Scope.squashedScope else Scope.unknownScope

/-- A sample log-level parse function recognizing only a few level names. -/
def samplePL : String → Option Level :=
  fun s =>
    if s == "debug" then some Level.debugLevel
    else if s == "info" then some Level.infoLevel
    else none

/-! ## Theorems -/

theorem keyMem_append (n : String) (xs ys : Captures) :
    keyMem n (xs ++ ys) = (keyMem n xs || keyMem n ys) := by
  simp [keyMem, List.any_append]

theorem keyMem_filterNe (n x : String) (h : x ≠ n) (m : Captures) :
    keyMem n (m.filter (fun p => p.1 ≠ x)) = keyMem n m := by
  induction m with
  | nil => rfl
  | cons a as ih =>
    simp only [List.filter_cons]
    by_cases ha : a.1 = x
    · have hd : (decide (a.1 ≠ x)) = false := by simp [ha]
      have han : (a.1 == n) = false := by
        have hne : a.1 ≠ n := by rw [ha]; exact h
        simp [hne]
      simp only [hd, Bool.false_eq_true, if_false, keyMem, List.any_cons, han,
        Bool.false_or] at ih ⊢
      exact ih
    · have hd : (decide (a.1 ≠ x)) = true := by simp [ha]
      simp only [hd, if_true, keyMem, List.any_cons] at ih ⊢
      rw [ih]

theorem keyMem_insertMeta (n : String) (kv : String × String) (m : Captures) :
    keyMem n (insertMeta m kv) = (keyMem n m || (kv.1 == n)) := by
  unfold insertMeta
  rw [keyMem_append]
  by_cases h : kv.1 = n
  · subst h
    simp [keyMem]
  · rw [keyMem_filterNe n kv.1 h]
    simp [keyMem, h]

theorem keyMem_foldl (n : String) :
    ∀ (caps acc : Captures),
      keyMem n (caps.foldl insertMeta acc) =
        (keyMem n acc || caps.any (fun p => p.1 == n))
  | [], acc => by simp [keyMem]
  | kv :: rest, acc => by
    rw [List.foldl_cons, keyMem_foldl n rest (insertMeta acc kv), keyMem_insertMeta]
    simp [List.any_cons, Bool.or_assoc, Bool.or_comm, Bool.or_left_comm]

theorem keyMem_metadataOf (n : String) (caps : Captures) :
    keyMem n (metadataOf caps) = caps.any (fun p => p.1 == n) := by
  unfold metadataOf
  rw [keyMem_foldl]
  simp [keyMem]

/-- C1: cataloging a tree whose only file is named libpython3.7.so and embeds
the byte sequence 3.7.4a-vZ9 in the python binary classifier's pattern form
yields, over the default classifier set, exactly one classification for that
location: class python-binary with metadata version = 3.7.4a-vZ9. -/
theorem catalog_python_fixture :
    Catalog DefaultClassifiers pyResolver = Except.ok [(pyLoc, [pyClassification])] := by
  decide

/-- C5: when a classifier's file selector rejects a location's basename, the
evidence matcher returns no-match for every possible opener — in particular
its outcome never depends on the opener, which models that the content is
never opened or read. -/
theorem selector_reject_never_opens (c : Classifier) (loc : Location)
    (h : c.fileSelector (basename loc.realPath) = false) :
    ∀ opener : Location → OpenResult,
      evidenceMatch c loc opener = Except.ok none := by
  intro opener
  simp [evidenceMatch, h]

/-- Witness for C5: the python classifier rejects README.md, and the matcher
returns no-match even under an opener that always fails. -/
theorem selector_reject_never_opens_witness :
    evidenceMatch pythonBinaryClassifier negLoc (fun _ => OpenResult.ioError "boom") =
      Except.ok none :=
  selector_reject_never_opens pythonBinaryClassifier negLoc (by decide)
    (fun _ => OpenResult.ioError "boom")

/-- C3: when a classifier's selector accepts a location and the content
pattern finds a leftmost match with capture list caps, the returned
classification's metadata is the folded capture mapping, and its key set is
exactly the group names that participated in that match — a named group that
did not participate is absent. -/
theorem evidenceMatch_metadata_exact (c : Classifier) (loc : Location)
    (opener : Location → OpenResult) (data : List Char) (caps : Captures)
    (hsel : c.fileSelector (basename loc.realPath) = true)
    (hopen : opener loc = OpenResult.ok data)
    (hfind : findIn c.contentPattern (window c data) = some caps) :
    evidenceMatch c loc opener =
      Except.ok (some { Class := c.Class, Metadata := metadataOf caps }) ∧
    ∀ n : String, keyMem n (metadataOf caps) = caps.any (fun p => p.1 == n) := by
  constructor
  · simp [evidenceMatch, hsel, hopen, hfind]
  · intro n
    exact keyMem_metadataOf n caps

/-- Witness for C3: the python fixture content matches with the single
capture version = 3.7.4a-vZ9 and the metadata has exactly that key. -/
theorem evidenceMatch_metadata_exact_witness :
    evidenceMatch pythonBinaryClassifier pyLoc pyResolver.content =
      Except.ok (some pyClassification) ∧
    ∀ n : String, keyMem n (metadataOf [("version", "3.7.4a-vZ9")]) =
      List.any [("version", "3.7.4a-vZ9")] (fun p => p.1 == n) :=
  evidenceMatch_metadata_exact pythonBinaryClassifier pyLoc pyResolver.content
    pyContent [("version", "3.7.4a-vZ9")] (by decide) (by decide) (by decide)

theorem contribution_eq (c : Classifier) (loc : Location)
    (opener : Location → OpenResult) (o : Option Classification)
    (h : evidenceMatch c loc opener = Except.ok o) :
    contribution c loc opener = o.toList := by
  unfold contribution
  rw [h]
  cases o <;> rfl

/-- C4: a single cataloging attempt of one location yields a classification
list that is the concatenation of per-classifier contributions, each of which
has at most one element — so a (location, classifier) pair never contributes
more than one classification per run. -/
theorem matchAll_one_per_classifier (cs : List Classifier) (loc : Location)
    (opener : Location → OpenResult) (lst : List Classification)
    (h : matchAll cs loc opener = Except.ok lst) :
    lst = (cs.map (fun c => contribution c loc opener)).flatten ∧
    ∀ c : Classifier, (contribution c loc opener).length ≤ 1 := by
  constructor
  · induction cs generalizing lst with
    | nil =>
      unfold matchAll at h
      cases h
      rfl
    | cons c rest ih =>
      unfold matchAll at h
      cases he : evidenceMatch c loc opener with
      | error e => simp [he] at h
      | ok o =>
        simp only [he] at h
        cases hm : matchAll rest loc opener with
        | error e => simp [hm] at h
        | ok tail =>
          simp only [hm] at h
          cases h
          rw [List.map_cons, List.flatten_cons, contribution_eq c loc opener o he,
            ih tail hm]
  · intro c
    unfold contribution
    cases evidenceMatch c loc opener with
    | error e => simp
    | ok o => cases o <;> simp

/-- Witness for C4: at the python fixture, the per-classifier contributions
join to the single python classification and each has length at most one. -/
theorem matchAll_one_per_classifier_witness :
    [pyClassification] =
      (DefaultClassifiers.map (fun c => contribution c pyLoc pyResolver.content)).flatten ∧
    ∀ c : Classifier, (contribution c pyLoc pyResolver.content).length ≤ 1 :=
  matchAll_one_per_classifier DefaultClassifiers pyLoc pyResolver.content
    [pyClassification] (by decide)

theorem addTo_entry_nonempty (acc : CatalogResult) (loc : Location)
    (lst : List Classification) (hacc : ∀ p ∈ acc, p.2 ≠ []) (hlst : lst ≠ []) :
    ∀ p ∈ addTo acc loc lst, p.2 ≠ [] := by
  intro p hp
  unfold addTo at hp
  split at hp
  · rcases List.mem_map.mp hp with ⟨q, hq, rfl⟩
    by_cases hql : q.1 = loc
    · simp only [hql, if_true]
      intro hcontra
      rcases List.append_eq_nil.mp hcontra with ⟨_, h2⟩
      exact hlst h2
    · simp only [hql, if_false]
      exact hacc q hq
  · rcases List.mem_append.mp hp with hin | hin
    · exact hacc p hin
    · rcases List.mem_singleton.mp hin with rfl
      exact hlst

theorem catalogFrom_entries_nonempty (cs : List Classifier)
    (content : Location → OpenResult) :
    ∀ (locs : List Location) (acc res : CatalogResult),
      (∀ p ∈ acc, p.2 ≠ []) → catalogFrom cs content locs acc = Except.ok res →
      ∀ p ∈ res, p.2 ≠ []
  | [], acc, res, hacc, h => by
    unfold catalogFrom at h
    cases h
    exact hacc
  | loc :: rest, acc, res, hacc, h => by
    unfold catalogFrom at h
    cases hm : matchAll cs loc content with
    | error e => simp [hm] at h
    | ok lst =>
      simp only [hm] at h
      by_cases he : lst.isEmpty = true
      · rw [if_pos he] at h
        exact catalogFrom_entries_nonempty cs content rest acc res hacc h
      · rw [if_neg he] at h
        have hlst : lst ≠ [] := by
          intro hc
          rw [hc] at he
          exact he rfl
        exact catalogFrom_entries_nonempty cs content rest (addTo acc loc lst) res
          (addTo_entry_nonempty acc loc lst hacc hlst) h

theorem matchAll_none (cs : List Classifier) (loc : Location)
    (opener : Location → OpenResult)
    (h : ∀ c ∈ cs, evidenceMatch c loc opener = Except.ok none) :
    matchAll cs loc opener = Except.ok [] := by
  induction cs with
  | nil => rfl
  | cons c rest ih =>
    unfold matchAll
    rw [h c (List.mem_cons_self c rest),
      ih (fun c2 hc2 => h c2 (List.mem_cons_of_mem c hc2))]
    rfl

theorem catalogFrom_none (cs : List Classifier) (content : Location → OpenResult) :
    ∀ (locs : List Location) (acc : CatalogResult),
      (∀ loc ∈ locs, matchAll cs loc content = Except.ok []) →
      catalogFrom cs content locs acc = Except.ok acc
  | [], _, _ => rfl
  | loc :: rest, acc, h => by
    unfold catalogFrom
    rw [h loc (List.mem_cons_self loc rest)]
    exact catalogFrom_none cs content rest acc
      (fun l hl => h l (List.mem_cons_of_mem loc hl))

/-- C2: negative-result semantics — every key of a successful catalog result
carries a nonempty classification list (a location with zero matches is
absent, never present with an empty list), and a run in which no classifier
matches any location returns the empty mapping without error. -/
theorem catalog_negative_semantics :
    (∀ (cs : List Classifier) (r : Resolver) (res : CatalogResult),
        Catalog cs r = Except.ok res → ∀ p ∈ res, p.2 ≠ []) ∧
    (∀ (cs : List Classifier) (r : Resolver),
        (∀ loc ∈ r.locations, ∀ c ∈ cs,
          evidenceMatch c loc r.content = Except.ok none) →
        Catalog cs r = Except.ok []) := by
  constructor
  · intro cs r res h
    exact catalogFrom_entries_nonempty cs r.content r.locations [] res
      (by intro p hp; cases hp) h
  · intro cs r h
    unfold Catalog
    exact catalogFrom_none cs r.content r.locations []
      (fun loc hloc => matchAll_none cs loc r.content (h loc hloc))

/-- Witness for C2: scanning a tree containing only an unrelated file yields
the empty mapping and no error. -/
theorem catalog_negative_semantics_witness :
    Catalog DefaultClassifiers negResolver = Except.ok [] :=
  catalog_negative_semantics.2 DefaultClassifiers negResolver (by decide)

theorem evidenceMatch_congr (c : Classifier) (loc : Location)
    (o1 o2 : Location → OpenResult) (h : o1 loc = o2 loc) :
    evidenceMatch c loc o1 = evidenceMatch c loc o2 := by
  unfold evidenceMatch
  rw [h]

theorem matchAll_congr (cs : List Classifier) (loc : Location)
    (o1 o2 : Location → OpenResult) (h : o1 loc = o2 loc) :
    matchAll cs loc o1 = matchAll cs loc o2 := by
  induction cs with
  | nil => rfl
  | cons c rest ih =>
    unfold matchAll
    rw [evidenceMatch_congr c loc o1 o2 h, ih]

theorem catalogFrom_congr (cs : List Classifier) (c1 c2 : Location → OpenResult) :
    ∀ (locs : List Location) (acc : CatalogResult),
      (∀ loc ∈ locs, c1 loc = c2 loc) →
      catalogFrom cs c1 locs acc = catalogFrom cs c2 locs acc
  | [], _, _ => rfl
  | loc :: rest, acc, h => by
    unfold catalogFrom
    rw [matchAll_congr cs loc c1 c2 (h loc (List.mem_cons_self loc rest))]
    cases hm : matchAll cs loc c2 with
    | error e => rfl
    | ok lst =>
      exact catalogFrom_congr cs c1 c2 rest
        (if lst.isEmpty then acc else addTo acc loc lst)
        (fun l hl => h l (List.mem_cons_of_mem loc hl))

/-- C6: the catalog run is a deterministic function of the filesystem
snapshot — two resolvers that enumerate the same locations and serve the same
content at each enumerated location produce identical catalog results (same
keys, same per-location list order, same metadata). -/
theorem catalog_deterministic (cs : List Classifier) (r1 r2 : Resolver)
    (hloc : r1.locations = r2.locations)
    (hcont : ∀ loc ∈ r1.locations, r1.content loc = r2.content loc) :
    Catalog cs r1 = Catalog cs r2 := by
  unfold Catalog
  rw [hloc]
  exact catalogFrom_congr cs r1.content r2.content r2.locations []
    (fun loc hl => hcont loc (by rw [hloc]; exact hl))

/-- Witness for C6: the python fixture resolver and a variant that differs
only off the enumerated snapshot produce the same result. -/
theorem catalog_deterministic_witness :
    Catalog DefaultClassifiers pyResolver = Catalog DefaultClassifiers pyResolverVariant :=
  catalog_deterministic DefaultClassifiers pyResolver pyResolverVariant rfl (by decide)

theorem evidenceMatch_ioError (c : Classifier) (loc : Location)
    (opener : Location → OpenResult) (msg : String)
    (hsel : c.fileSelector (basename loc.realPath) = true)
    (herr : opener loc = OpenResult.ioError msg) :
    evidenceMatch c loc opener = Except.error msg := by
  simp [evidenceMatch, hsel, herr]

theorem matchAll_error_of_mem (cs : List Classifier) (loc : Location)
    (opener : Location → OpenResult) (c : Classifier) (msg : String)
    (hc : c ∈ cs) (he : evidenceMatch c loc opener = Except.error msg) :
    ∃ e, matchAll cs loc opener = Except.error e := by
  induction cs with
  | nil => cases hc
  | cons c0 rest ih =>
    unfold matchAll
    cases h0 : evidenceMatch c0 loc opener with
    | error e => exact ⟨e, rfl⟩
    | ok o =>
      rcases List.mem_cons.mp hc with rfl | hmem
      · rw [h0] at he; cases he
      · rcases ih hmem with ⟨e, hme⟩
        rw [hme]
        exact ⟨e, rfl⟩

theorem catalogFrom_error_of_mem (cs : List Classifier)
    (content : Location → OpenResult) :
    ∀ (locs : List Location) (acc : CatalogResult) (loc : Location),
      loc ∈ locs → (∃ e, matchAll cs loc content = Except.error e) →
      ∃ e, catalogFrom cs content locs acc = Except.error e
  | [], _, _, hl, _ => absurd hl (List.not_mem_nil _)
  | loc0 :: rest, acc, loc, hl, hme => by
    unfold catalogFrom
    cases h0 : matchAll cs loc0 content with
    | error e => exact ⟨e, rfl⟩
    | ok lst =>
      rcases List.mem_cons.mp hl with rfl | hmem
      · rcases hme with ⟨e, hee⟩
        rw [h0] at hee
        cases hee
      · exact catalogFrom_error_of_mem cs content rest
          (if lst.isEmpty then acc else addTo acc loc0 lst) loc hmem hme

/-- C7: an unexpected I/O error on opening any selected location's content
makes the whole catalog run fail with a propagated error — the run returns an
error value and hence no partial result mapping. -/
theorem catalog_fails_on_io_error (cs : List Classifier) (r : Resolver)
    (loc : Location) (c : Classifier) (msg : String)
    (hloc : loc ∈ r.locations) (hc : c ∈ cs)
    (hsel : c.fileSelector (basename loc.realPath) = true)
    (herr : r.content loc = OpenResult.ioError msg) :
    ∃ e, Catalog cs r = Except.error e := by
  unfold Catalog
  exact catalogFrom_error_of_mem cs r.content r.locations [] loc hloc
    (matchAll_error_of_mem cs loc r.content c msg hc
      (evidenceMatch_ioError c loc r.content msg hsel herr))

/-- Witness for C7: a resolver whose python library file cannot be read makes
the whole run fail. -/
theorem catalog_fails_on_io_error_witness :
    ∃ e, Catalog DefaultClassifiers errResolver = Except.error e :=
  catalog_fails_on_io_error DefaultClassifiers errResolver pyLoc
    pythonBinaryClassifier "read failure" (by decide)
    (List.mem_cons_self pythonBinaryClassifier
      [cpythonSourceClassifier, goBinaryClassifier, goHintClassifier, busyboxClassifier])
    (by decide) (by decide)

/-- C8: cataloger construction validates the classifier set — the empty set
is rejected, any classifier whose pattern has a named-group name collision is
rejected with a configuration error, and construction over the default
classifier set succeeds (invalid regular-expression syntax has no counterpart
in the pattern syntax tree embedding). -/
theorem construction_validation :
    (∃ e, NewClassificationCataloger [] = Except.error e) ∧
    (∀ (cs : List Classifier) (c : Classifier), c ∈ cs →
        nodupNames c.contentPattern.groupNames = false →
        ∃ e, NewClassificationCataloger cs = Except.error e) ∧
    NewClassificationCataloger DefaultClassifiers =
      Except.ok { classifiers := DefaultClassifiers } := by
  refine ⟨⟨"no classifiers provided", rfl⟩, ?_, rfl⟩
  intro cs c hc hbad
  unfold NewClassificationCataloger
  have hne : cs.isEmpty = false := by
    cases cs with
    | nil => cases hc
    | cons a as => rfl
  have hall : cs.all (fun c2 => nodupNames c2.contentPattern.groupNames) = false := by
    apply List.all_eq_false.mpr
    refine ⟨c, hc, ?_⟩
    simp [hbad]
  rw [hne, hall]
  exact ⟨"invalid classifier pattern", rfl⟩

/-- Witness for C8: a classifier with a duplicated named group is rejected at
construction. -/
theorem construction_validation_witness :
    ∃ e, NewClassificationCataloger [collidingClassifier] = Except.error e :=
  construction_validation.2.1 [collidingClassifier] collidingClassifier
    (List.mem_cons_self collidingClassifier []) (by decide)

/-- C9: with Quiet set, build succeeds (given valid output and scope strings)
and forces the effective log level to PanicLevel, for every log-level string,
every verbosity, and every level parser — in particular the level/verbosity
conflict check is skipped. -/
theorem quiet_overrides_logging (po : String → PresenterOption) (ps : String → Scope)
    (pl : String → Option Level) (cfg : Application)
    (hq : cfg.quiet = true)
    (hout : po cfg.output ≠ PresenterOption.unknownPresenter)
    (hscope : ps cfg.scope ≠ Scope.unknownScope) :
    ∃ cfg2 : Application, build po ps pl cfg = Except.ok cfg2 ∧
      cfg2.log.levelOpt = Level.panicLevel := by
  unfold build
  rw [if_neg hout, if_neg hscope, hq]
  exact ⟨_, rfl, rfl⟩

/-- Witness for C9: a quiet configuration with a conflicting explicit level
and verbosity still builds, with PanicLevel as the effective level. -/
theorem quiet_overrides_logging_witness :
    ∃ cfg2 : Application, build samplePO samplePS samplePL quietCfg = Except.ok cfg2 ∧
      cfg2.log.levelOpt = Level.panicLevel :=
  quiet_overrides_logging samplePO samplePS samplePL quietCfg rfl
    (by decide) (by decide)

/-- C10: build fails exactly when the output string parses to the unknown
presenter, the scope string parses to the unknown scope, or — when not quiet —
the log-level string is nonempty and either the CLI verbosity is positive or
the level string does not parse; and whenever build fails, load also returns
an error and no application value. -/
theorem build_error_characterization (po : String → PresenterOption)
    (ps : String → Scope) (pl : String → Option Level) (cfg : Application) :
    ((∃ e, build po ps pl cfg = Except.error e) ↔
      (po cfg.output = PresenterOption.unknownPresenter ∨
       ps cfg.scope = Scope.unknownScope ∨
       (cfg.quiet = false ∧ cfg.log.level ≠ "" ∧
         (cfg.cliOptions.verbosity > 0 ∨ pl (toLowerStr cfg.log.level) = none)))) ∧
    ((∃ e, build po ps pl cfg = Except.error e) →
      ∃ e2, loadApplicationConfig po ps pl (Except.ok cfg) = Except.error e2) := by
  constructor
  · by_cases h1 : po cfg.output = PresenterOption.unknownPresenter
    · simp [build, h1]
    · by_cases h2 : ps cfg.scope = Scope.unknownScope
      · simp [build, h1, h2]
      · by_cases h3 : cfg.quiet = true
        · simp [build, h1, h2, h3]
        · have h3f : cfg.quiet = false := by
            cases hqv : cfg.quiet
            · rfl
            · exact absurd hqv h3
          by_cases h4 : cfg.log.level = ""
          · simp [build, h1, h2, h3f, h4]
          · by_cases h5 : cfg.cliOptions.verbosity > 0
            · simp [build, h1, h2, h3f, h4, h5]
            · cases h6 : pl (toLowerStr cfg.log.level) with
              | none => simp [build, h1, h2, h3f, h4, h5, h6]
              | some lvl => simp [build, h1, h2, h3f, h4, h5, h6]
  · intro h
    rcases h with ⟨e, he⟩
    refine ⟨"invalid config: " ++ e, ?_⟩
    unfold loadApplicationConfig
    simp only [he]

/-- Witness for C10: a non-quiet configuration with the unparseable log level
string bogus makes build fail and load propagate the error. -/
theorem build_error_characterization_witness :
    ∃ e2, loadApplicationConfig samplePO samplePS samplePL (Except.ok badLevelCfg) =
      Except.error e2 :=
  (build_error_characterization samplePO samplePS samplePL badLevelCfg).2
    ((build_error_characterization samplePO samplePS samplePL badLevelCfg).1.mpr
      (by decide))

end Syft
